import Mathlib

/-!
Verification of the core helper layer of the terraform-provider-modeanalytics
repository: the retrying HTTP request executor (HttpRetry) and the deletion
verification loop (CheckDeletion) from internal/provider/helpers.go, plus the
collection create/read field mappings from internal/provider/resource_collection.go
and the response body accounting of the data source permission resource.

The upstream HTTP exchanges are modelled by oracles: a function from the index
of an issued request to the observed result. Machine behaviour that the claims
quantify over (status codes, body decode results, transport failures) is carried
by small inductive types mirroring the Go values.
-/

/-- Result of issuing one HTTP request through the shared client: either a
response carrying its status code, or a transport level error (client.Do /
client.Get returned a non nil error, so no response was received). -/
inductive HttpResult where
  | success (status : Nat)
  | failure (msg : String)
deriving DecidableEq, Repr

/-- Observable trace of one HttpRetry invocation: the returned response/error
pair, the number of requests issued, and the number of fixed delay sleeps
performed. -/
structure RetryTrace where
  result : HttpResult
  requests : Nat
  sleeps : Nat
deriving DecidableEq, Repr

/-- Attempt budget of HttpRetry (helpers.go: attempts := 9). -/
def httpRetryAttempts : Nat := 9

/-- Fixed backoff delay of HttpRetry in seconds (helpers.go: sleep := 10 * time.Second). -/
def httpRetrySleepSeconds : Nat := 10

/-- Body of the retry loop of HttpRetry (helpers.go lines 86 - 92): issue the
request for attempt i; if the observed status is not 429 (Too Many Requests),
break out of the loop with that result; otherwise sleep the fixed delay and try
again while attempts remain. fuel is the number of attempts remaining after the
current one; slp accumulates performed sleeps. -/
def httpRetryLoop (send : Nat → HttpResult) : Nat → Nat → Nat → RetryTrace
  | i, slp, 0 =>
      let res := send i
      if res = HttpResult.success 429 then ⟨res, i + 1, slp + 1⟩
      else ⟨res, i + 1, slp⟩
  | i, slp, fuel + 1 =>
      let res := send i
      if res = HttpResult.success 429 then httpRetryLoop send (i + 1) (slp + 1) fuel
      else ⟨res, i + 1, slp⟩

/-- HttpRetry (helpers.go lines 82 - 94): run the retry loop starting at the
first attempt with the full budget of 9 attempts, returning the last attempted
request result unmodified. -/
def HttpRetry (send : Nat → HttpResult) : RetryTrace :=
  httpRetryLoop send 0 0 (httpRetryAttempts - 1)

/-- Outcome of decoding the JSON body of a 200 poll response inside
CheckDeletion (helpers.go lines 61 - 66): either the decoder failed, or the
state field was extracted. -/
inductive Body where
  | decodeFail (msg : String)
  | stateIs (s : String)
deriving DecidableEq, Repr

/-- Result of one GET poll of CheckDeletion against the resource URL. -/
inductive GetResult where
  | failure (msg : String)
  | response (status : Nat) (body : Body)
deriving DecidableEq, Repr

/-- Result of the secondary workaround GET of CheckDeletion against the parent
collection listing (helpers.go lines 41 - 56): building the request can fail
(http.NewRequest error, before any request is issued), sending it can fail
(client.Do error), or a response with a status code comes back. -/
inductive SecResult where
  | reqError (msg : String)
  | doError (msg : String)
  | response (status : Nat)
deriving DecidableEq, Repr

/-- Terminal classification of a CheckDeletion run, following the state machine
of the specification: the nil error exits are ConfirmedDeleted, the exhausted
budget exit is TimedOut, every other exit is Errored. -/
inductive DelOutcome where
  | confirmedDeleted
  | timedOut
  | errored
deriving DecidableEq, Repr

/-- Observable trace of one CheckDeletion invocation: the returned error (none
is the nil error, success), the terminal outcome, the number of GET polls
issued against the resource URL, and the URLs of issued secondary workaround
GET requests. -/
structure DelTrace where
  error : Option String
  outcome : DelOutcome
  polls : Nat
  secondaryCalls : List String
deriving DecidableEq, Repr

/-- Split a character list on a separator character, keeping empty segments,
with the semantics of strings.Split / String.splitOn for a one character
separator: the empty list yields one empty segment. -/
def chSplit (sep : Char) : List Char → List (List Char)
  | [] => [[]]
  | c :: rest =>
      let r := chSplit sep rest
      if c = sep then [] :: r
      else
        match r with
        | [] => [[c]]
        | h :: t => (c :: h) :: t

/-- Recognizer for the regular expression used by the 403 workaround of
CheckDeletion (helpers.go line 38). A URL matches exactly when
splitting it on the slash character gives the seven segments
https:, an empty segment, a non empty host, api, a non empty workspace,
spaces, and a non empty token. -/
def matchesSpacesPattern (url : String) : Bool :=
  match chSplit '/' url.data with
  | [scheme, empty, host, api, ws, spaces, tok] =>
      scheme == "https:".data && empty == [] && host != [] && api == "api".data &&
        ws != [] && spaces == "spaces".data && tok != []
  | _ => false

/-- Longest prefix of a character list that stops before the first occurrence
of the separator list, with the semantics of the first element of
strings.Split(s, sep): when the separator does not occur the whole list is
returned. -/
def beforeSub (sep : List Char) : List Char → List Char
  | [] => []
  | c :: rest =>
      if List.isPrefixOf sep (c :: rest) then []
      else c :: beforeSub sep rest

/-- URL of the secondary workaround GET of CheckDeletion (helpers.go line 40):
the part of the resource URL before the first occurrence of the segment
separator slash spaces slash, with the suffix for listing all collections
appended. -/
def workaroundURL (url : String) : String :=
  String.mk (beforeSub "/spaces/".data url.data) ++ "/spaces?filter=all"

/-- Number of ticker fires handled within the one minute timeout budget of
CheckDeletion (ticker period 10 seconds, ticks at 10 through 50 seconds before
the 60 second timeout fires). -/
def checkDeletionTicks : Nat := 5

/-- One tick of the CheckDeletion loop (helpers.go lines 20 - 79), recursing on
the remaining tick budget. i is the number of polls already issued, get is the
oracle for the poll GET requests, sec the oracle for the at most one secondary
workaround GET. Exhausted budget returns the timeout error; a transport failure
or an unexpected status returns a formatted error; 404 and a 200 body in state
soft_deleted return the nil error; a 200 body in any other state continues with
the next tick; 403 runs the workaround when the URL matches the nested
collection pattern. -/
def checkDeletionLoop (url : String) (get : Nat → GetResult) (sec : SecResult) :
    Nat → Nat → DelTrace
  | i, 0 =>
      ⟨some "deletion verification timed out after 1 minute", DelOutcome.timedOut, i, []⟩
  | i, fuel + 1 =>
      match get i with
      | GetResult.failure msg =>
          ⟨some ("error making GET request: " ++ msg), DelOutcome.errored, i + 1, []⟩
      | GetResult.response status body =>
          if status = 404 then
            ⟨none, DelOutcome.confirmedDeleted, i + 1, []⟩
          else if status = 403 then
            if matchesSpacesPattern url then
              match sec with
              | SecResult.reqError msg =>
                  ⟨some ("Unable to read collections during deletion verification, got error: " ++ msg),
                    DelOutcome.errored, i + 1, []⟩
              | SecResult.doError msg =>
                  ⟨some ("Unable to read collections during deletion verification, got error: " ++ msg),
                    DelOutcome.errored, i + 1, [workaroundURL url]⟩
              | SecResult.response s =>
                  if s = 200 then
                    ⟨none, DelOutcome.confirmedDeleted, i + 1, [workaroundURL url]⟩
                  else
                    ⟨some "Unable to read collections during deletion verification, got error: %!s(<nil>)",
                      DelOutcome.errored, i + 1, [workaroundURL url]⟩
            else
              ⟨some ("unexpected status: " ++ toString status ++ ", not retrying"),
                DelOutcome.errored, i + 1, []⟩
          else if status = 200 then
            match body with
            | Body.decodeFail msg =>
                ⟨some ("error decoding response: " ++ msg), DelOutcome.errored, i + 1, []⟩
            | Body.stateIs s =>
                if s = "soft_deleted" then
                  ⟨none, DelOutcome.confirmedDeleted, i + 1, []⟩
                else
                  checkDeletionLoop url get sec (i + 1) fuel
          else
            ⟨some ("unexpected status or state: " ++ toString status ++ ", not retrying"),
              DelOutcome.errored, i + 1, []⟩

/-- CheckDeletion (helpers.go lines 15 - 80): run the poll loop from the first
tick with the full tick budget of the one minute timeout. -/
def CheckDeletion (url : String) (get : Nat → GetResult) (sec : SecResult) : DelTrace :=
  checkDeletionLoop url get sec 0 checkDeletionTicks

/-- True exactly when the character list sub occurs as a contiguous
subsequence of the character list of s. -/
def occursIn (sub : List Char) : List Char → Bool
  | [] => List.isPrefixOf sub []
  | c :: rest => List.isPrefixOf sub (c :: rest) || occursIn sub rest

/-- True exactly when the string sub occurs as a substring of s. -/
def substrOccurs (s sub : String) : Bool := occursIn sub.data s.data

/-- Result of the HttpRetry call made by DataSourcePermissionResource.Create
(part_000 line 162): either an error with no response, or a response carrying a
status code and whether its body later decodes as the expected JSON. -/
inductive RetryOutcome where
  | err (msg : String)
  | resp (status : Nat) (decodeOk : Bool)
deriving DecidableEq, Repr

/-- Response body accounting for one code path: how many bodies were acquired
and how many of them are closed by the time the function returns. -/
structure BodyTrace where
  acquired : Nat
  closed : Nat
deriving DecidableEq, Repr

/-- Body accounting of DataSourcePermissionResource.Create (part_000 lines
156 - 183). When HttpRetry returns an error no response body exists. When it
returns a response, the body is acquired; the early return taken when the
status is not 200 happens before the deferred Close is registered, so that path
closes nothing. On the remaining paths the deferred Close runs exactly once at
return, whether the body decode succeeds or fails. -/
def dataSourcePermissionCreateBodies : RetryOutcome → BodyTrace
  | RetryOutcome.err _ => ⟨0, 0⟩
  | RetryOutcome.resp status _ =>
      if status ≠ 200 then ⟨1, 0⟩
      else ⟨1, 1⟩

/-- Body accounting of one non recursive poll tick of CheckDeletion
(helpers.go lines 25 - 29): a successful GET acquires the body and a deferred
Close registered immediately afterwards closes it exactly once at function
return; a failed GET acquires nothing. The secondary workaround body is handled
the same way (lines 46 - 50). -/
def checkDeletionTickBodies : GetResult → BodyTrace
  | GetResult.failure _ => ⟨0, 0⟩
  | GetResult.response _ _ => ⟨1, 1⟩

/-- Logical field values of the collection resource model
(resource_collection.go, CollectionModel as used by Create and Read). -/
structure CollectionModel where
  collectionToken : String
  id : String
  state : String
  collectionType : String
  name : String
  description : String
  restricted : Bool
  freeDefault : Bool
  viewable : Bool
  defaultAccessLevel : String
deriving DecidableEq, Repr

/-- JSON payload fields of the space object sent by Create and Update
(resource_collection.go, struct Collection). -/
structure Collection where
  spaceType : String
  name : String
  description : String
  restricted : Bool
  freeDefault : Bool
  viewable : Bool
  defaultAccessLevel : String
deriving DecidableEq, Repr

/-- Fields of the JSON object returned by the upstream API for a collection
(resource_collection.go, the responseData struct of Create and Read). -/
structure CollectionResponse where
  id : String
  name : String
  state : String
  spaceType : String
  token : String
  description : String
  restricted : Bool
  freeDefault : Bool
  viewable : Bool
  defaultAccessLevel : String
deriving DecidableEq, Repr

/-- Request mapping of CollectionResource.Create (resource_collection.go lines
156 - 169): the planned fields are copied into the space payload, and a planned
default access level of restricted is rewritten to none before sending. -/
def collectionCreatePayload (plan : CollectionModel) : Collection :=
  let c : Collection :=
    ⟨plan.collectionType, plan.name, plan.description, plan.restricted,
      plan.freeDefault, plan.viewable, plan.defaultAccessLevel⟩
  if plan.defaultAccessLevel = "restricted" then { c with defaultAccessLevel := "none" }
  else c

/-- Modelled from the spec: the upstream REST API is an external collaborator
not present in src (section 6 of the specification leaves it unspecified). The
round trip property presumes the server stores the created object and echoes
its fields back in the create response and in subsequent reads, assigning the
server side token, id and state. -/
def apiEcho (c : Collection) (token id state : String) : CollectionResponse :=
  ⟨id, c.name, state, c.spaceType, token, c.description, c.restricted,
    c.freeDefault, c.viewable, c.defaultAccessLevel⟩

/-- Response mapping of CollectionResource.Create (resource_collection.go lines
206 - 212): token, state, id and the four access fields are overwritten from
the response; name, type and description keep their planned values. -/
def collectionCreateState (plan : CollectionModel) (resp : CollectionResponse) :
    CollectionModel :=
  { plan with
    collectionToken := resp.token
    state := resp.state
    id := resp.id
    restricted := resp.restricted
    freeDefault := resp.freeDefault
    viewable := resp.viewable
    defaultAccessLevel := resp.defaultAccessLevel }

/-- Response mapping of the 200 branch of CollectionResource.Read
(resource_collection.go lines 253 - 273): a body in state soft_deleted removes
the resource from state (none); otherwise every mapped field is overwritten
from the response. -/
def collectionReadResult (st : CollectionModel) (resp : CollectionResponse) :
    Option CollectionModel :=
  if resp.state = "soft_deleted" then none
  else
    some { st with
      state := resp.state
      name := resp.name
      collectionType := resp.spaceType
      description := resp.description
      restricted := resp.restricted
      freeDefault := resp.freeDefault
      viewable := resp.viewable
      defaultAccessLevel := resp.defaultAccessLevel }

/-- Create followed immediately by Read against the returned token, with the
upstream API modelled by apiEcho: Create sends the payload, stores the fields
of the create response, and Read maps the fields of the read response of the
same stored object. -/
def createThenRead (plan : CollectionModel) (token id state : String) :
    Option CollectionModel :=
  let sent := collectionCreatePayload plan
  let created := apiEcho sent token id state
  let afterCreate := collectionCreateState plan created
  collectionReadResult afterCreate (apiEcho sent token id state)

theorem httpRetryLoop_not429 (send : Nat → HttpResult) (i slp fuel : Nat)
    (h : send i ≠ HttpResult.success 429) :
    httpRetryLoop send i slp fuel = ⟨send i, i + 1, slp⟩ := by
  cases fuel <;> simp [httpRetryLoop, h]

theorem httpRetryLoop_429_succ (send : Nat → HttpResult) (i slp fuel : Nat)
    (h : send i = HttpResult.success 429) :
    httpRetryLoop send i slp (fuel + 1) = httpRetryLoop send (i + 1) (slp + 1) fuel := by
  simp [httpRetryLoop, h]

theorem httpRetryLoop_429_zero (send : Nat → HttpResult) (i slp : Nat)
    (h : send i = HttpResult.success 429) :
    httpRetryLoop send i slp 0 = ⟨HttpResult.success 429, i + 1, slp + 1⟩ := by
  simp [httpRetryLoop, h]

theorem httpRetryLoop_break (send : Nat → HttpResult) :
    ∀ (k i slp fuel : Nat), k ≤ fuel →
      (∀ j, j < k → send (i + j) = HttpResult.success 429) →
      send (i + k) ≠ HttpResult.success 429 →
      httpRetryLoop send i slp fuel = ⟨send (i + k), i + k + 1, slp + k⟩ := by
  intro k
  induction k with
  | zero =>
      intro i slp fuel _ _ hne
      simpa using httpRetryLoop_not429 send i slp fuel (by simpa using hne)
  | succ k ih =>
      intro i slp fuel hk hall hne
      cases fuel with
      | zero => omega
      | succ fuel =>
          have h0 : send i = HttpResult.success 429 := by
            simpa using hall 0 (Nat.succ_pos k)
          rw [httpRetryLoop_429_succ send i slp fuel h0]
          have hall1 : ∀ j, j < k → send (i + 1 + j) = HttpResult.success 429 := by
            intro j hj
            have := hall (j + 1) (by omega)
            have e : i + (j + 1) = i + 1 + j := by omega
            rwa [e] at this
          have hne1 : send (i + 1 + k) ≠ HttpResult.success 429 := by
            have e : i + (k + 1) = i + 1 + k := by omega
            rwa [e] at hne
          have := ih (i + 1) (slp + 1) fuel (by omega) hall1 hne1
          rw [this]
          have e1 : i + 1 + k = i + (k + 1) := by omega
          have e2 : slp + 1 + k = slp + (k + 1) := by omega
          rw [e1, e2]

theorem httpRetryLoop_requests_le (send : Nat → HttpResult) :
    ∀ (fuel i slp : Nat), (httpRetryLoop send i slp fuel).requests ≤ i + fuel + 1 := by
  intro fuel
  induction fuel with
  | zero =>
      intro i slp
      by_cases h : send i = HttpResult.success 429 <;> simp [httpRetryLoop, h]
  | succ fuel ih =>
      intro i slp
      by_cases h : send i = HttpResult.success 429
      · rw [httpRetryLoop_429_succ send i slp fuel h]
        have := ih (i + 1) (slp + 1)
        omega
      · rw [httpRetryLoop_not429 send i slp _ h]
        simp

theorem httpRetryLoop_requests_ge (send : Nat → HttpResult) :
    ∀ (fuel i slp : Nat), i + 1 ≤ (httpRetryLoop send i slp fuel).requests := by
  intro fuel
  induction fuel with
  | zero =>
      intro i slp
      by_cases h : send i = HttpResult.success 429 <;> simp [httpRetryLoop, h]
  | succ fuel ih =>
      intro i slp
      by_cases h : send i = HttpResult.success 429
      · rw [httpRetryLoop_429_succ send i slp fuel h]
        have := ih (i + 1) (slp + 1)
        omega
      · rw [httpRetryLoop_not429 send i slp _ h]

theorem httpRetryLoop_sleeps_count (send : Nat → HttpResult) :
    ∀ (fuel i slp : Nat),
      (httpRetryLoop send i slp fuel).sleeps =
        slp + (List.range ((httpRetryLoop send i slp fuel).requests - i)).countP
          (fun j => decide (send (i + j) = HttpResult.success 429)) := by
  intro fuel
  induction fuel with
  | zero =>
      intro i slp
      by_cases h : send i = HttpResult.success 429
      · rw [httpRetryLoop_429_zero send i slp h]
        simp [List.range_succ, h]
      · rw [httpRetryLoop_not429 send i slp _ h]
        simp [List.range_succ, h]
  | succ fuel ih =>
      intro i slp
      by_cases h : send i = HttpResult.success 429
      · rw [httpRetryLoop_429_succ send i slp fuel h]
        have hge := httpRetryLoop_requests_ge send fuel (i + 1) (slp + 1)
        have e : (httpRetryLoop send (i + 1) (slp + 1) fuel).requests - i
            = ((httpRetryLoop send (i + 1) (slp + 1) fuel).requests - (i + 1)) + 1 := by
          omega
        rw [ih (i + 1) (slp + 1), e, List.range_succ_eq_map]
        simp only [List.countP_cons, List.countP_map]
        have harg :
            ((fun j => decide (send (i + j) = HttpResult.success 429)) ∘ Nat.succ)
              = fun j => decide (send (i + 1 + j) = HttpResult.success 429) := by
          funext j
          simp only [Function.comp_apply]
          rw [(by omega : i + Nat.succ j = i + 1 + j)]
        rw [harg]
        simp [h]
        omega
      · rw [httpRetryLoop_not429 send i slp _ h]
        simp [List.range_succ, h]

theorem httpRetryLoop_all429 (send : Nat → HttpResult) :
    ∀ (fuel i slp : Nat),
      (∀ j, i ≤ j → j ≤ i + fuel → send j = HttpResult.success 429) →
      httpRetryLoop send i slp fuel
        = ⟨HttpResult.success 429, i + fuel + 1, slp + fuel + 1⟩ := by
  intro fuel
  induction fuel with
  | zero =>
      intro i slp hall
      have h := hall i (Nat.le_refl i) (by omega)
      rw [httpRetryLoop_429_zero send i slp h]
  | succ fuel ih =>
      intro i slp hall
      have h := hall i (Nat.le_refl i) (by omega)
      rw [httpRetryLoop_429_succ send i slp fuel h]
      have := ih (i + 1) (slp + 1) (fun j h1 h2 => hall j (by omega) (by omega))
      rw [this]
      have e1 : i + 1 + fuel = i + (fuel + 1) := by omega
      have e2 : slp + 1 + fuel = slp + (fuel + 1) := by omega
      rw [e1, e2]

/-- Claim C1: for every sequence of upstream responses whose first N - 1
responses have status 429 and whose Nth response has any other status, with N
at most the attempt budget of 9, HttpRetry issues exactly N requests and
returns the Nth response unmodified (having slept only after the N - 1 rate
limited attempts). -/
theorem c1_http_retry_returns_nth (send : Nat → HttpResult) (N s : Nat)
    (hN1 : 1 ≤ N) (hN9 : N ≤ httpRetryAttempts)
    (h429 : ∀ i, i < N - 1 → send i = HttpResult.success 429)
    (hs : send (N - 1) = HttpResult.success s) (hne : s ≠ 429) :
    HttpRetry send = ⟨HttpResult.success s, N, N - 1⟩ := by
  have hb := httpRetryLoop_break send (N - 1) 0 0 (httpRetryAttempts - 1)
    (by simp [httpRetryAttempts] at hN9 ⊢; omega)
    (by intro j hj; simpa using h429 j hj)
    (by
      simp only [Nat.zero_add]
      rw [hs]
      intro hcontr
      exact hne (by injection hcontr))
  simp only [Nat.zero_add] at hb
  rw [hs] at hb
  have e : N - 1 + 1 = N := by omega
  rw [e] at hb
  exact hb

/-- Witness for C1 at the concrete input where the first two responses are 429
and the third has status 200: exactly three requests are issued and the third
response is returned unmodified. -/
theorem c1_http_retry_returns_nth_witness :
    HttpRetry (fun i => if i < 2 then HttpResult.success 429 else HttpResult.success 200)
      = ⟨HttpResult.success 200, 3, 2⟩ :=
  c1_http_retry_returns_nth
    (fun i => if i < 2 then HttpResult.success 429 else HttpResult.success 200)
    3 200 (by omega) (by decide)
    (fun i hi => by
      have h2 : i < 2 := by omega
      simp [h2])
    (by decide) (by decide)

/-- Claim C2: for every sequence of responses HttpRetry issues at most 9
requests (the attempt budget is 9 and the fixed delay is 10 seconds), performs
one fixed delay sleep exactly for each issued attempt whose response had status
429, and when all 9 attempts see status 429 it returns the last attempted
response itself (a plain 429 result, not a distinguished error) after the 9th
request without issuing a 10th. -/
theorem c2_http_retry_budget (send : Nat → HttpResult) :
    (HttpRetry send).requests ≤ httpRetryAttempts ∧
    httpRetryAttempts = 9 ∧ httpRetrySleepSeconds = 10 ∧
    (HttpRetry send).sleeps =
      (List.range (HttpRetry send).requests).countP
        (fun j => decide (send j = HttpResult.success 429)) ∧
    ((∀ i, i < 9 → send i = HttpResult.success 429) →
      HttpRetry send = ⟨HttpResult.success 429, 9, 9⟩ ∧
      (HttpRetry send).result = send 8) := by
  refine ⟨?_, rfl, rfl, ?_, ?_⟩
  · have := httpRetryLoop_requests_le send (httpRetryAttempts - 1) 0 0
    simpa [HttpRetry, httpRetryAttempts] using this
  · have := httpRetryLoop_sleeps_count send (httpRetryAttempts - 1) 0 0
    simpa [HttpRetry] using this
  · intro hall
    have h9 : httpRetryLoop send 0 0 8 = ⟨HttpResult.success 429, 9, 9⟩ := by
      have := httpRetryLoop_all429 send 8 0 0 (fun j _ hj => hall j (by omega))
      simpa using this
    constructor
    · simpa [HttpRetry, httpRetryAttempts] using h9
    · have h8 : send 8 = HttpResult.success 429 := hall 8 (by omega)
      have : HttpRetry send = ⟨HttpResult.success 429, 9, 9⟩ := by
        simpa [HttpRetry, httpRetryAttempts] using h9
      rw [this, h8]

/-- Witness for C2 at the concrete all rate limited sequence: nine requests,
nine sleeps, and the ninth 429 response returned as is. -/
theorem c2_http_retry_budget_witness :
    HttpRetry (fun _ => HttpResult.success 429) = ⟨HttpResult.success 429, 9, 9⟩ ∧
    (HttpRetry (fun _ => HttpResult.success 429)).requests ≤ httpRetryAttempts :=
  ⟨((c2_http_retry_budget (fun _ => HttpResult.success 429)).2.2.2.2
      (fun _ _ => rfl)).1,
    (c2_http_retry_budget (fun _ => HttpResult.success 429)).1⟩

theorem checkDeletionLoop_zero (url : String) (get : Nat → GetResult) (sec : SecResult)
    (i : Nat) :
    checkDeletionLoop url get sec i 0
      = ⟨some "deletion verification timed out after 1 minute", DelOutcome.timedOut, i, []⟩ :=
  rfl

theorem checkDeletionLoop_fail (url : String) (get : Nat → GetResult) (sec : SecResult)
    (i fuel : Nat) (msg : String) (hg : get i = GetResult.failure msg) :
    checkDeletionLoop url get sec i (fuel + 1)
      = ⟨some ("error making GET request: " ++ msg), DelOutcome.errored, i + 1, []⟩ := by
  simp [checkDeletionLoop, hg]

theorem checkDeletionLoop_404 (url : String) (get : Nat → GetResult) (sec : SecResult)
    (i fuel : Nat) (b : Body) (hg : get i = GetResult.response 404 b) :
    checkDeletionLoop url get sec i (fuel + 1)
      = ⟨none, DelOutcome.confirmedDeleted, i + 1, []⟩ := by
  simp [checkDeletionLoop, hg]

theorem checkDeletionLoop_403_match_200 (url : String) (get : Nat → GetResult)
    (i fuel : Nat) (b : Body) (hg : get i = GetResult.response 403 b)
    (hm : matchesSpacesPattern url = true) :
    checkDeletionLoop url get (SecResult.response 200) i (fuel + 1)
      = ⟨none, DelOutcome.confirmedDeleted, i + 1, [workaroundURL url]⟩ := by
  simp [checkDeletionLoop, hg, hm]

theorem checkDeletionLoop_403_match_non200 (url : String) (get : Nat → GetResult)
    (i fuel s : Nat) (b : Body) (hg : get i = GetResult.response 403 b)
    (hm : matchesSpacesPattern url = true) (hs : s ≠ 200) :
    checkDeletionLoop url get (SecResult.response s) i (fuel + 1)
      = ⟨some "Unable to read collections during deletion verification, got error: %!s(<nil>)",
          DelOutcome.errored, i + 1, [workaroundURL url]⟩ := by
  simp [checkDeletionLoop, hg, hm, hs]

theorem checkDeletionLoop_403_match_doError (url : String) (get : Nat → GetResult)
    (i fuel : Nat) (msg : String) (b : Body) (hg : get i = GetResult.response 403 b)
    (hm : matchesSpacesPattern url = true) :
    checkDeletionLoop url get (SecResult.doError msg) i (fuel + 1)
      = ⟨some ("Unable to read collections during deletion verification, got error: " ++ msg),
          DelOutcome.errored, i + 1, [workaroundURL url]⟩ := by
  simp [checkDeletionLoop, hg, hm]

theorem checkDeletionLoop_403_nomatch (url : String) (get : Nat → GetResult) (sec : SecResult)
    (i fuel : Nat) (b : Body) (hg : get i = GetResult.response 403 b)
    (hm : matchesSpacesPattern url = false) :
    checkDeletionLoop url get sec i (fuel + 1)
      = ⟨some ("unexpected status: " ++ toString (403 : Nat) ++ ", not retrying"),
          DelOutcome.errored, i + 1, []⟩ := by
  simp [checkDeletionLoop, hg, hm]

theorem checkDeletionLoop_200_decodeFail (url : String) (get : Nat → GetResult)
    (sec : SecResult) (i fuel : Nat) (msg : String)
    (hg : get i = GetResult.response 200 (Body.decodeFail msg)) :
    checkDeletionLoop url get sec i (fuel + 1)
      = ⟨some ("error decoding response: " ++ msg), DelOutcome.errored, i + 1, []⟩ := by
  simp [checkDeletionLoop, hg]

theorem checkDeletionLoop_200_soft (url : String) (get : Nat → GetResult) (sec : SecResult)
    (i fuel : Nat) (hg : get i = GetResult.response 200 (Body.stateIs "soft_deleted")) :
    checkDeletionLoop url get sec i (fuel + 1)
      = ⟨none, DelOutcome.confirmedDeleted, i + 1, []⟩ := by
  simp [checkDeletionLoop, hg]

theorem checkDeletionLoop_200_active (url : String) (get : Nat → GetResult) (sec : SecResult)
    (i fuel : Nat) (s : String) (hg : get i = GetResult.response 200 (Body.stateIs s))
    (hs : s ≠ "soft_deleted") :
    checkDeletionLoop url get sec i (fuel + 1) = checkDeletionLoop url get sec (i + 1) fuel := by
  simp [checkDeletionLoop, hg, hs]

theorem checkDeletionLoop_other (url : String) (get : Nat → GetResult) (sec : SecResult)
    (i fuel st : Nat) (b : Body) (hg : get i = GetResult.response st b)
    (h404 : st ≠ 404) (h403 : st ≠ 403) (h200 : st ≠ 200) :
    checkDeletionLoop url get sec i (fuel + 1)
      = ⟨some ("unexpected status or state: " ++ toString st ++ ", not retrying"),
          DelOutcome.errored, i + 1, []⟩ := by
  simp [checkDeletionLoop, hg, h404, h403, h200]

theorem checkDeletionLoop_skip (url : String) (get : Nat → GetResult) (sec : SecResult) :
    ∀ (k i fuel : Nat), k ≤ fuel →
      (∀ j, j < k → ∃ s, get (i + j) = GetResult.response 200 (Body.stateIs s)
        ∧ s ≠ "soft_deleted") →
      checkDeletionLoop url get sec i fuel = checkDeletionLoop url get sec (i + k) (fuel - k) := by
  intro k
  induction k with
  | zero => intro i fuel _ _; simp
  | succ k ih =>
      intro i fuel hk hall
      cases fuel with
      | zero => omega
      | succ fuel =>
          obtain ⟨s, hg, hs⟩ := hall 0 (Nat.succ_pos k)
          rw [Nat.add_zero] at hg
          rw [checkDeletionLoop_200_active url get sec i fuel s hg hs]
          have hall1 : ∀ j, j < k → ∃ s, get (i + 1 + j) = GetResult.response 200 (Body.stateIs s)
              ∧ s ≠ "soft_deleted" := by
            intro j hj
            obtain ⟨s1, hg1, hs1⟩ := hall (j + 1) (by omega)
            exact ⟨s1, by rwa [(by omega : i + (j + 1) = i + 1 + j)] at hg1, hs1⟩
          have := ih (i + 1) fuel (by omega) hall1
          rw [this, (by omega : i + 1 + k = i + (k + 1)),
            (by omega : fuel - k = fuel + 1 - (k + 1))]

theorem checkDeletionLoop_error_iff (url : String) (get : Nat → GetResult) (sec : SecResult) :
    ∀ (fuel i : Nat),
      ((checkDeletionLoop url get sec i fuel).error = none
        ↔ (checkDeletionLoop url get sec i fuel).outcome = DelOutcome.confirmedDeleted) := by
  intro fuel
  induction fuel with
  | zero => intro i; simp [checkDeletionLoop_zero]
  | succ fuel ih =>
      intro i
      cases hg : get i with
      | failure msg => simp [checkDeletionLoop_fail url get sec i fuel msg hg]
      | response st b =>
          by_cases h404 : st = 404
          · subst h404
            simp [checkDeletionLoop_404 url get sec i fuel b hg]
          · by_cases h403 : st = 403
            · subst h403
              by_cases hm : matchesSpacesPattern url = true
              · cases sec with
                | reqError msg =>
                    simp [checkDeletionLoop, hg, hm]
                | doError msg =>
                    simp [checkDeletionLoop_403_match_doError url get i fuel msg b hg hm]
                | response s =>
                    by_cases hs : s = 200
                    · subst hs
                      simp [checkDeletionLoop_403_match_200 url get i fuel b hg hm]
                    · simp [checkDeletionLoop_403_match_non200 url get i fuel s b hg hm hs]
              · have hm2 : matchesSpacesPattern url = false := by
                  simpa using hm
                simp [checkDeletionLoop_403_nomatch url get sec i fuel b hg hm2]
            · by_cases h200 : st = 200
              · subst h200
                cases b with
                | decodeFail msg =>
                    simp [checkDeletionLoop_200_decodeFail url get sec i fuel msg hg]
                | stateIs s =>
                    by_cases hs : s = "soft_deleted"
                    · subst hs
                      simp [checkDeletionLoop_200_soft url get sec i fuel hg]
                    · rw [checkDeletionLoop_200_active url get sec i fuel s hg hs]
                      exact ih (i + 1)
              · simp [checkDeletionLoop_other url get sec i fuel st b hg h404 h403 h200]

/-- Claim C3: CheckDeletion returns success (nil error) on the first poll whose
response is status 404 and on the first poll whose response is status 200 with
the body state field equal to soft_deleted; a 200 response with any other
state keeps the loop polling into the next tick instead of returning. The last
conjunct states the first 404 behaviour after any run of such still active
polls within the budget. -/
theorem c3_check_deletion_first_success (url : String) (get : Nat → GetResult)
    (sec : SecResult) :
    (∀ b, get 0 = GetResult.response 404 b →
      CheckDeletion url get sec = ⟨none, DelOutcome.confirmedDeleted, 1, []⟩) ∧
    (get 0 = GetResult.response 200 (Body.stateIs "soft_deleted") →
      CheckDeletion url get sec = ⟨none, DelOutcome.confirmedDeleted, 1, []⟩) ∧
    (∀ s, get 0 = GetResult.response 200 (Body.stateIs s) → s ≠ "soft_deleted" →
      CheckDeletion url get sec = checkDeletionLoop url get sec 1 (checkDeletionTicks - 1)) ∧
    (∀ k, k < checkDeletionTicks →
      (∀ j, j < k → ∃ s, get j = GetResult.response 200 (Body.stateIs s)
        ∧ s ≠ "soft_deleted") →
      ∀ b, get k = GetResult.response 404 b →
      CheckDeletion url get sec = ⟨none, DelOutcome.confirmedDeleted, k + 1, []⟩) := by
  refine ⟨?_, ?_, ?_, ?_⟩
  · intro b hg
    exact checkDeletionLoop_404 url get sec 0 4 b hg
  · intro hg
    exact checkDeletionLoop_200_soft url get sec 0 4 hg
  · intro s hg hs
    exact checkDeletionLoop_200_active url get sec 0 4 s hg hs
  · intro k hk hall b hg
    have hskip := checkDeletionLoop_skip url get sec k 0 checkDeletionTicks
      (by omega) (by simpa using hall)
    rw [CheckDeletion, hskip]
    have e : checkDeletionTicks - k = (checkDeletionTicks - k - 1) + 1 := by
      simp [checkDeletionTicks] at hk ⊢
      omega
    rw [(by omega : (0 : Nat) + k = k), e]
    exact checkDeletionLoop_404 url get sec k (checkDeletionTicks - k - 1) b hg

/-- Witness for C3 at a concrete run: one still active 200 poll followed by a
404 poll gives success with two polls and no secondary calls. -/
theorem c3_check_deletion_first_success_witness :
    CheckDeletion "https://host/api/ws1/spaces/tok1"
      (fun j => if j = 0 then GetResult.response 200 (Body.stateIs "active")
                else GetResult.response 404 (Body.stateIs ""))
      (SecResult.response 200)
      = ⟨none, DelOutcome.confirmedDeleted, 2, []⟩ :=
  (c3_check_deletion_first_success "https://host/api/ws1/spaces/tok1"
      (fun j => if j = 0 then GetResult.response 200 (Body.stateIs "active")
                else GetResult.response 404 (Body.stateIs ""))
      (SecResult.response 200)).2.2.2 1 (by decide)
    (fun j hj => ⟨"active", by
      have h0 : j = 0 := by omega
      simp [h0], by decide⟩)
    (Body.stateIs "") (by decide)

/-- Claim C4: if every poll within the timeout budget returns status 200 with a
state other than soft_deleted, CheckDeletion returns the timeout error with the
TimedOut terminal outcome rather than success; and on every input it returns an
error exactly when it does not reach the ConfirmedDeleted outcome. -/
theorem c4_check_deletion_timeout (url : String) (get : Nat → GetResult) (sec : SecResult) :
    ((∀ j, ∃ s, get j = GetResult.response 200 (Body.stateIs s) ∧ s ≠ "soft_deleted") →
      CheckDeletion url get sec
        = ⟨some "deletion verification timed out after 1 minute", DelOutcome.timedOut,
            checkDeletionTicks, []⟩) ∧
    ((CheckDeletion url get sec).error = none
      ↔ (CheckDeletion url get sec).outcome = DelOutcome.confirmedDeleted) := by
  constructor
  · intro hall
    have hskip := checkDeletionLoop_skip url get sec checkDeletionTicks 0 checkDeletionTicks
      (Nat.le_refl _) (fun j hj => by simpa using hall j)
    rw [CheckDeletion, hskip, Nat.sub_self, checkDeletionLoop_zero]
    simp
  · exact checkDeletionLoop_error_iff url get sec checkDeletionTicks 0

/-- Witness for C4 at the concrete run where every poll returns 200 with state
active: the timeout error is returned after the five polls of the one minute
budget. -/
theorem c4_check_deletion_timeout_witness :
    CheckDeletion "https://host/api/ws1/spaces/tok1"
      (fun _ => GetResult.response 200 (Body.stateIs "active")) (SecResult.response 200)
      = ⟨some "deletion verification timed out after 1 minute", DelOutcome.timedOut, 5, []⟩ :=
  (c4_check_deletion_timeout "https://host/api/ws1/spaces/tok1"
      (fun _ => GetResult.response 200 (Body.stateIs "active")) (SecResult.response 200)).1
    (fun _ => ⟨"active", rfl, by decide⟩)

/-- Claim C5: on a 403 poll, when the resource URL matches the nested
collection pattern (the example URL does, and its workaround URL is the parent
collection listing with the all filter), CheckDeletion issues exactly one
secondary GET against that listing URL and succeeds exactly when the secondary
call returns 200; a non 200 secondary status or a failed secondary send yields
the Errored outcome with no further polling, and a non matching URL yields the
Errored outcome without attempting the workaround at all. -/
theorem c5_check_deletion_forbidden_workaround (url : String) (get : Nat → GetResult) :
    matchesSpacesPattern "https://host/api/ws1/spaces/tok1" = true ∧
    workaroundURL "https://host/api/ws1/spaces/tok1" = "https://host/api/ws1/spaces?filter=all" ∧
    (∀ b, get 0 = GetResult.response 403 b → matchesSpacesPattern url = true →
      CheckDeletion url get (SecResult.response 200)
        = ⟨none, DelOutcome.confirmedDeleted, 1, [workaroundURL url]⟩) ∧
    (∀ b s, get 0 = GetResult.response 403 b → matchesSpacesPattern url = true → s ≠ 200 →
      CheckDeletion url get (SecResult.response s)
        = ⟨some "Unable to read collections during deletion verification, got error: %!s(<nil>)",
            DelOutcome.errored, 1, [workaroundURL url]⟩) ∧
    (∀ b msg, get 0 = GetResult.response 403 b → matchesSpacesPattern url = true →
      CheckDeletion url get (SecResult.doError msg)
        = ⟨some ("Unable to read collections during deletion verification, got error: " ++ msg),
            DelOutcome.errored, 1, [workaroundURL url]⟩) ∧
    (∀ b sec, get 0 = GetResult.response 403 b → matchesSpacesPattern url = false →
      CheckDeletion url get sec
        = ⟨some ("unexpected status: " ++ toString (403 : Nat) ++ ", not retrying"),
            DelOutcome.errored, 1, []⟩) := by
  refine ⟨by decide, by decide, ?_, ?_, ?_, ?_⟩
  · intro b hg hm
    exact checkDeletionLoop_403_match_200 url get 0 4 b hg hm
  · intro b s hg hm hs
    exact checkDeletionLoop_403_match_non200 url get 0 4 s b hg hm hs
  · intro b msg hg hm
    exact checkDeletionLoop_403_match_doError url get 0 4 msg b hg hm
  · intro b sec hg hm
    exact checkDeletionLoop_403_nomatch url get sec 0 4 b hg hm

/-- Witness for C5 at the example URL of the specification: a 403 poll followed
by a 200 on the parent listing succeeds with one poll and exactly one secondary
call; the same poll against a non matching URL errors without a secondary
call. -/
theorem c5_check_deletion_forbidden_workaround_witness :
    CheckDeletion "https://host/api/ws1/spaces/tok1"
      (fun _ => GetResult.response 403 (Body.stateIs "")) (SecResult.response 200)
      = ⟨none, DelOutcome.confirmedDeleted, 1, ["https://host/api/ws1/spaces?filter=all"]⟩ ∧
    CheckDeletion "https://host/api/ws1/reports/tok1"
      (fun _ => GetResult.response 403 (Body.stateIs "")) (SecResult.response 200)
      = ⟨some ("unexpected status: " ++ toString (403 : Nat) ++ ", not retrying"),
          DelOutcome.errored, 1, []⟩ := by
  constructor
  · have h := (c5_check_deletion_forbidden_workaround "https://host/api/ws1/spaces/tok1"
        (fun _ => GetResult.response 403 (Body.stateIs ""))).2.2.1
      (Body.stateIs "") rfl (by decide)
    rw [h, (c5_check_deletion_forbidden_workaround "https://host/api/ws1/spaces/tok1"
        (fun _ => GetResult.response 403 (Body.stateIs ""))).2.1]
  · exact (c5_check_deletion_forbidden_workaround "https://host/api/ws1/reports/tok1"
        (fun _ => GetResult.response 403 (Body.stateIs ""))).2.2.2.2.2
      (Body.stateIs "") (SecResult.response 200) rfl (by decide)

/-- Claim C6: a poll response whose status is none of 200, 403 and 404 makes
CheckDeletion return a descriptive error naming the status on that same tick,
with the Errored outcome, no further polls and no secondary requests; the
statement covers the poll at any position after still active 200 polls. -/
theorem c6_check_deletion_unexpected_status (url : String) (get : Nat → GetResult)
    (sec : SecResult) (k st : Nat) (b : Body)
    (hk : k < checkDeletionTicks)
    (hall : ∀ j, j < k → ∃ s, get j = GetResult.response 200 (Body.stateIs s)
      ∧ s ≠ "soft_deleted")
    (hg : get k = GetResult.response st b)
    (h404 : st ≠ 404) (h403 : st ≠ 403) (h200 : st ≠ 200) :
    CheckDeletion url get sec
      = ⟨some ("unexpected status or state: " ++ toString st ++ ", not retrying"),
          DelOutcome.errored, k + 1, []⟩ := by
  have hskip := checkDeletionLoop_skip url get sec k 0 checkDeletionTicks
    (by omega) (by simpa using hall)
  rw [CheckDeletion, hskip, (by omega : (0 : Nat) + k = k)]
  have e : checkDeletionTicks - k = (checkDeletionTicks - k - 1) + 1 := by
    simp [checkDeletionTicks] at hk ⊢
    omega
  rw [e]
  exact checkDeletionLoop_other url get sec k (checkDeletionTicks - k - 1) st b hg h404 h403 h200

/-- Witness for C6 at a concrete first poll with status 500: the loop errors on
the same tick with one poll, no secondary calls, and the status in the
message. -/
theorem c6_check_deletion_unexpected_status_witness :
    CheckDeletion "https://host/api/ws1/spaces/tok1"
      (fun _ => GetResult.response 500 (Body.stateIs "")) (SecResult.response 200)
      = ⟨some "unexpected status or state: 500, not retrying", DelOutcome.errored, 1, []⟩ :=
  c6_check_deletion_unexpected_status "https://host/api/ws1/spaces/tok1"
    (fun _ => GetResult.response 500 (Body.stateIs "")) (SecResult.response 200)
    0 500 (Body.stateIs "") (by decide) (fun j hj => absurd hj (by omega)) rfl
    (by decide) (by decide) (by decide)

/-- Claim C8 (code bug): the invariant that every acquired response body is
closed exactly once on every exit path fails in
DataSourcePermissionResource.Create. When HttpRetry returns a response whose
status is not 200, the early return at part_000 lines 163 - 166 runs before the
deferred Close at line 167 is registered, so the acquired body is closed zero
times on that path; on the 200 paths it is closed exactly once. The CheckDeletion
poll tick itself does close each acquired body exactly once. -/
theorem c8_body_close_leak :
    dataSourcePermissionCreateBodies (RetryOutcome.resp 500 true) = ⟨1, 0⟩ ∧
    dataSourcePermissionCreateBodies (RetryOutcome.resp 200 true) = ⟨1, 1⟩ ∧
    dataSourcePermissionCreateBodies (RetryOutcome.resp 200 false) = ⟨1, 1⟩ ∧
    checkDeletionTickBodies (GetResult.response 200 (Body.stateIs "active")) = ⟨1, 1⟩ := by
  decide

/-- Claim C9 (counterexample): the mapping from API JSON back to the internal
model composed with the request mapping of Create is not the identity on the
planned values. For a plan whose default access level is restricted, Create
sends none upstream (resource_collection.go lines 167 - 169), the echoed
object carries none, and the state stored after Create followed by Read holds
none instead of the planned restricted. -/
theorem c9_roundtrip_counterexample :
    (createThenRead ⟨"", "", "", "custom", "n", "d", false, false, true, "restricted"⟩
        "tok1" "id1" "active").map CollectionModel.defaultAccessLevel = some "none" ∧
    CollectionModel.defaultAccessLevel
        ⟨"", "", "", "custom", "n", "d", false, false, true, "restricted"⟩ = "restricted" ∧
    ("none" : String) ≠ "restricted" := by
  decide

/-- Claim C9 (amended): Create followed immediately by Read yields the same
logical values for every planned field whenever the planned default access
level is not restricted; when it is restricted, every other planned field is
preserved but the stored default access level is none, the value Create sent
upstream in its place. The token stored in state is the one returned by the
server. -/
theorem c9_roundtrip_amended (plan : CollectionModel) (token id state : String)
    (hstate : state ≠ "soft_deleted") :
    ∃ m, createThenRead plan token id state = some m ∧
      m.name = plan.name ∧
      m.collectionType = plan.collectionType ∧
      m.description = plan.description ∧
      m.restricted = plan.restricted ∧
      m.freeDefault = plan.freeDefault ∧
      m.viewable = plan.viewable ∧
      m.collectionToken = token ∧
      (plan.defaultAccessLevel ≠ "restricted" → m.defaultAccessLevel = plan.defaultAccessLevel) ∧
      (plan.defaultAccessLevel = "restricted" → m.defaultAccessLevel = "none") := by
  by_cases h : plan.defaultAccessLevel = "restricted" <;>
    simp [createThenRead, collectionCreatePayload, apiEcho, collectionCreateState,
      collectionReadResult, hstate, h]

/-- Witness for the amended C9 at a concrete plan whose default access level is
full: Create followed by Read preserves every planned field. -/
theorem c9_roundtrip_amended_witness :
    ∃ m, createThenRead ⟨"", "", "", "custom", "n", "d", true, false, true, "full"⟩
        "tok1" "id1" "active" = some m ∧
      m.name = CollectionModel.name ⟨"", "", "", "custom", "n", "d", true, false, true, "full"⟩ ∧
      m.collectionType = CollectionModel.collectionType
        ⟨"", "", "", "custom", "n", "d", true, false, true, "full"⟩ ∧
      m.description = CollectionModel.description
        ⟨"", "", "", "custom", "n", "d", true, false, true, "full"⟩ ∧
      m.restricted = CollectionModel.restricted
        ⟨"", "", "", "custom", "n", "d", true, false, true, "full"⟩ ∧
      m.freeDefault = CollectionModel.freeDefault
        ⟨"", "", "", "custom", "n", "d", true, false, true, "full"⟩ ∧
      m.viewable = CollectionModel.viewable
        ⟨"", "", "", "custom", "n", "d", true, false, true, "full"⟩ ∧
      m.collectionToken = "tok1" ∧
      (CollectionModel.defaultAccessLevel
          ⟨"", "", "", "custom", "n", "d", true, false, true, "full"⟩ ≠ "restricted" →
        m.defaultAccessLevel = CollectionModel.defaultAccessLevel
          ⟨"", "", "", "custom", "n", "d", true, false, true, "full"⟩) ∧
      (CollectionModel.defaultAccessLevel
          ⟨"", "", "", "custom", "n", "d", true, false, true, "full"⟩ = "restricted" →
        m.defaultAccessLevel = "none") :=
  c9_roundtrip_amended ⟨"", "", "", "custom", "n", "d", true, false, true, "full"⟩
    "tok1" "id1" "active" (by decide)

/-- Claim C10 (code bug): the errors returned on a deletion verification
timeout and on a failed 403 workaround secondary call carry neither the target
URL nor the observed status code. The workaround failure message even formats
the err variable, which is nil on that path (helpers.go line 53), printing the
Go nil error placeholder instead of the secondary status code. -/
theorem c10_error_context_missing :
    (CheckDeletion "https://host/api/ws1/spaces/tok1"
        (fun _ => GetResult.response 403 (Body.stateIs "")) (SecResult.response 500)).error
      = some "Unable to read collections during deletion verification, got error: %!s(<nil>)" ∧
    substrOccurs "Unable to read collections during deletion verification, got error: %!s(<nil>)"
      "https://host/api/ws1/spaces/tok1" = false ∧
    substrOccurs "Unable to read collections during deletion verification, got error: %!s(<nil>)"
      "500" = false ∧
    substrOccurs "Unable to read collections during deletion verification, got error: %!s(<nil>)"
      "403" = false ∧
    (CheckDeletion "https://host/api/ws1/spaces/tok1"
        (fun _ => GetResult.response 200 (Body.stateIs "active")) (SecResult.response 200)).error
      = some "deletion verification timed out after 1 minute" ∧
    substrOccurs "deletion verification timed out after 1 minute"
      "https://host/api/ws1/spaces/tok1" = false ∧
    substrOccurs "deletion verification timed out after 1 minute" "200" = false := by
  decide
